import Mathlib

/-!
Verification of `azure-cosmosdb-batch-api` (src/logging_service.py, src/db.py,
src/main.py) via a shallow embedding.

Modelling conventions:
* Python objects that matter only through their identity get an `objId : Nat`
  field; object construction draws a fresh id from the world counter, so two
  separately constructed providers/handlers are distinct values, as the
  corresponding Python objects are.
* The process-wide state touched by the code — the `logging` module's logger
  registry, and the OpenTelemetry global logger/tracer providers set through
  `set_logger_provider` / `set_tracer_provider` — is an explicit `World` value
  threaded through the methods.
* The pluggable processor classes (`BatchLogRecordProcessor`, `BatchSpanProcessor`)
  are opaque in the source; a processor is modelled by the exporter it wraps.
* Python floats carrying the sampling ratio are modelled as rationals; the code
  only passes them through, never computes with them.
* A Python `raise` is modelled by returning `Except.error msg` together with the
  state as it was when the exception was raised.
-/

namespace CosmosBatchApi

/-! ### logging_service.py : configuration -/

/-- Severity levels of `LogLevels` (ordered DEBUG < INFO < WARNING < ERROR < CRITICAL). -/
inductive LogLevels
  | DEBUG
  | INFO
  | WARNING
  | ERROR
  | CRITICAL
deriving DecidableEq, Repr

/-- `ConfigApplicationInsights` settings object. -/
structure ConfigApplicationInsights where
  APPLICATIONINSIGHTS_CONNECTION_STRING : String
  LOGGING_LEVEL : LogLevels := LogLevels.INFO
  LOGGING_ENABLED : Bool := true
deriving DecidableEq, Repr

/-! ### OpenTelemetry objects used by logging_service.py -/

/-- The resource descriptor `Resource.create({"service.name": ..., "service.instance.id": ...})`. -/
structure Resource where
  service_name : String
  service_instance_id : String
deriving DecidableEq, Repr

/-- A log exporter: `ConsoleLogExporter` or `AzureMonitorLogExporter(connection_string=...)`. -/
inductive LogExporter
  | console
  | azureMonitor (connection_string : String)
deriving DecidableEq, Repr

/-- A span exporter: `ConsoleSpanExporter` or `AzureMonitorTraceExporter(connection_string=...)`. -/
inductive SpanExporter
  | console
  | azureMonitor (connection_string : String)
deriving DecidableEq, Repr

/-- A log record processor, modelled by the exporter it wraps (the processor class
is an opaque constructor parameter in the source). -/
structure LogRecordProcessor where
  exporter : LogExporter
deriving DecidableEq, Repr

/-- A span processor, modelled by the exporter it wraps. -/
structure SpanProcessor where
  exporter : SpanExporter
deriving DecidableEq, Repr

/-- Test whether a span exporter is the Azure Monitor (cloud) exporter. -/
def SpanExporter.isAzureMonitor : SpanExporter → Bool
  | SpanExporter.azureMonitor _ => true
  | SpanExporter.console => false

/-- An OpenTelemetry `LoggerProvider` object. -/
structure LoggerProvider where
  objId : Nat
  resource : Resource
  processors : List LogRecordProcessor
deriving DecidableEq, Repr

/-- The `ApplicationInsightsSampler(sampling_ratio=...)` object. -/
structure ApplicationInsightsSampler where
  sampling_ratio : ℚ
deriving DecidableEq, Repr

/-- An OpenTelemetry `TracerProvider` object. -/
structure TracerProvider where
  objId : Nat
  sampler : ApplicationInsightsSampler
  resource : Resource
  processors : List SpanProcessor
deriving DecidableEq, Repr

/-- A tracer obtained from `tracer_provider.get_tracer(instrumenting_module_name=...)`. -/
structure Tracer where
  provider : TracerProvider
  instrumenting_module_name : String
deriving DecidableEq, Repr

/-- `TracerProvider.get_tracer` of the OpenTelemetry SDK, which is idempotent per name. -/
def TracerProvider.get_tracer (tp : TracerProvider) (instrumenting_module_name : String) :
    Tracer :=
  { provider := tp, instrumenting_module_name := instrumenting_module_name }

/-! ### Python logging runtime state -/

/-- A `logging.Handler` attached to a logger: either the console `StreamHandler`
(named "Console Handler", carrying the formatter pattern) or the OpenTelemetry
`LoggingHandler` (named "Azure Monitor Handler", carrying the provider it forwards to).
Both carry the level set via `setLevel` and a fresh object id. -/
inductive Handler
  | streamHandler (objId : Nat) (name : String) (formatter : String) (level : LogLevels)
  | loggingHandler (objId : Nat) (name : String) (logger_provider : LoggerProvider)
      (level : LogLevels)
deriving DecidableEq, Repr

/-- The state of one logger in the `logging` module registry: its level
(`none` until `setLevel` is called) and attached handlers. -/
structure PyLogger where
  level : Option LogLevels := none
  handlers : List Handler := []
deriving DecidableEq, Repr

/-- `Logger.addHandler`: appends unless the same handler object is already attached. -/
def PyLogger.addHandler (l : PyLogger) (h : Handler) : PyLogger :=
  if h ∈ l.handlers then l else { l with handlers := l.handlers ++ [h] }

/-- `Logger.setLevel`. -/
def PyLogger.setLevel (l : PyLogger) (lvl : LogLevels) : PyLogger :=
  { l with level := some lvl }

/-- The process-wide state: the `logging` module registry (every name resolves to a
logger, a fresh one having no handlers and no level), the OpenTelemetry global
providers, and the fresh-object counter. -/
structure World where
  pyLoggers : String → PyLogger
  global_logger_provider : Option LoggerProvider := none
  global_tracer_provider : Option TracerProvider := none
  nextObjId : Nat := 0

/-- `logging.getLogger(name)`. -/
def World.getLogger (w : World) (name : String) : PyLogger :=
  w.pyLoggers name

/-- Update the registry entry of one logger name. -/
def World.updateLogger (w : World) (name : String) (f : PyLogger → PyLogger) : World :=
  { w with pyLoggers := fun n => if n = name then f (w.pyLoggers n) else w.pyLoggers n }

/-- `opentelemetry._logs.set_logger_provider`, modelled as installing the provider
as the process-wide default. -/
def set_logger_provider (w : World) (lp : LoggerProvider) : World :=
  { w with global_logger_provider := some lp }

/-- `opentelemetry.trace.set_tracer_provider`, modelled as installing the provider
as the process-wide default. -/
def set_tracer_provider (w : World) (tp : TracerProvider) : World :=
  { w with global_tracer_provider := some tp }

/-! ### LoggingService -/

/-- The fields of a `LoggingService` instance after `__init__` (the processor-class
parameters are opaque and not carried). The formatter string is the fixed pattern
default of `__init__`. -/
structure LoggingService where
  config : ConfigApplicationInsights
  console_log_exporter : Bool := false
  console_span_exporter : Bool := false
  console_logger : Bool := true
  formatter : String := "%(levelname)s [%(asctime)s] \x7b%(module)s\x7d %(message)s"
  service_name : String
  service_instance_name : String
  loggers : List String := []
  logger_provider : Option LoggerProvider := none
  tracer_provider : Option TracerProvider := none
  sampling_ratio : ℚ := 1

/-- `LoggingService._init_azure_log_exporter`. -/
def LoggingService.init_azure_log_exporter (config : ConfigApplicationInsights) :
    LogExporter :=
  LogExporter.azureMonitor config.APPLICATIONINSIGHTS_CONNECTION_STRING

/-- `LoggingService._init_azure_span_exporter`. -/
def LoggingService.init_azure_span_exporter (config : ConfigApplicationInsights) :
    SpanExporter :=
  SpanExporter.azureMonitor config.APPLICATIONINSIGHTS_CONNECTION_STRING

/-- `LoggingService._init_console_log_exporter`. -/
def LoggingService.init_console_log_exporter : LogExporter :=
  LogExporter.console

/-- `LoggingService._init_console_span_exporter`. -/
def LoggingService.init_console_span_exporter : SpanExporter :=
  SpanExporter.console

/-- `LoggingService.setup_logger_provider`: builds the resource descriptor, the
exporter list (optional console exporter, then the Azure exporter), wraps each in
a processor, registers them on a freshly constructed provider, installs it as the
process-wide default and records it on the instance. -/
def LoggingService.setup_logger_provider (svc : LoggingService) (w : World) :
    LoggingService × World × LoggerProvider :=
  let resource : Resource :=
    { service_name := svc.service_name, service_instance_id := svc.service_instance_name }
  let log_exporters : List LogExporter :=
    (if svc.console_log_exporter then [LoggingService.init_console_log_exporter] else []) ++
      [LoggingService.init_azure_log_exporter svc.config]
  let log_records_processors : List LogRecordProcessor :=
    log_exporters.map (fun e => { exporter := e })
  let logger_provider : LoggerProvider :=
    { objId := w.nextObjId, resource := resource, processors := log_records_processors }
  let w1 : World :=
    set_logger_provider { w with nextObjId := w.nextObjId + 1 } logger_provider
  ({ svc with logger_provider := some logger_provider }, w1, logger_provider)

/-- `LoggingService.setup_tracer_provider`: builds the resource descriptor, a
provider with an `ApplicationInsightsSampler` at the given ratio (default 1.0),
the exporter list (optional console exporter; the Azure exporter only when
`LOGGING_ENABLED`), wraps each in a processor, registers them, installs the
provider as the process-wide default and records it on the instance. -/
def LoggingService.setup_tracer_provider (svc : LoggingService) (w : World)
    (sampling_ratio : ℚ := 1) : LoggingService × World × TracerProvider :=
  let resource : Resource :=
    { service_name := svc.service_name, service_instance_id := svc.service_instance_name }
  let span_exporters : List SpanExporter :=
    (if svc.console_span_exporter then [LoggingService.init_console_span_exporter] else []) ++
      (if svc.config.LOGGING_ENABLED then [LoggingService.init_azure_span_exporter svc.config]
       else [])
  let span_processors : List SpanProcessor :=
    span_exporters.map (fun e => { exporter := e })
  let tracer_provider : TracerProvider :=
    { objId := w.nextObjId, sampler := { sampling_ratio := sampling_ratio },
      resource := resource, processors := span_processors }
  let w1 : World :=
    set_tracer_provider { w with nextObjId := w.nextObjId + 1 } tracer_provider
  ({ svc with tracer_provider := some tracer_provider }, w1, tracer_provider)

/-- The error message raised by `get_logger` for the empty (root) logger name. -/
def rootLoggerErrorMessage : String :=
  "Don\x27t use the root logger. For more information, see: " ++
    "https://github.com/Azure/azure-sdk-for-python/issues/34787"

/-- `LoggingService._initialize_console_log_handler`: a stream handler named
"Console Handler" with the instance formatter, at the configured level. The
fresh object id is passed in by the caller. -/
def LoggingService.initialize_console_log_handler (svc : LoggingService) (objId : Nat) :
    Handler :=
  Handler.streamHandler objId "Console Handler" svc.formatter svc.config.LOGGING_LEVEL

/-- `LoggingService.get_logger`. Additional loggers are identified by their
registry names (Python logger objects are global per name). The result string
is the name of the returned logger handle. -/
def LoggingService.get_logger (svc : LoggingService) (w : World) (logger_name : String)
    (additional_loggers : Option (List String) := none) :
    LoggingService × World × Except String String :=
  if logger_name = "" then
    (svc, w, Except.error rootLoggerErrorMessage)
  else if logger_name ∈ svc.loggers then
    (svc, w, Except.ok logger_name)
  else
    let consoleStep : World × List Handler :=
      if svc.console_logger then
        ({ w with nextObjId := w.nextObjId + 1 },
          [svc.initialize_console_log_handler w.nextObjId])
      else (w, [])
    let w1 : World := consoleStep.1
    let handlers0 : List Handler := consoleStep.2
    let azureStep : LoggingService × World × List Handler :=
      if svc.config.LOGGING_ENABLED then
        let provStep : LoggingService × World × LoggerProvider :=
          match svc.logger_provider with
          | some lp => (svc, w1, lp)
          | none => svc.setup_logger_provider w1
        let svc1 := provStep.1
        let w2 := provStep.2.1
        let lp := provStep.2.2
        let azure_logging_handler : Handler :=
          Handler.loggingHandler w2.nextObjId "Azure Monitor Handler" lp
            svc.config.LOGGING_LEVEL
        (svc1, { w2 with nextObjId := w2.nextObjId + 1 },
          handlers0 ++ [azure_logging_handler])
      else (svc, w1, handlers0)
    let svc2 := azureStep.1
    let w3 := azureStep.2.1
    let handlers : List Handler := azureStep.2.2
    let w4 : World := w3.updateLogger logger_name fun l =>
      handlers.foldl PyLogger.addHandler (l.setLevel svc.config.LOGGING_LEVEL)
    let svc3 : LoggingService := { svc2 with loggers := svc2.loggers ++ [logger_name] }
    let w5 : World :=
      match additional_loggers with
      | none => w4
      | some adds =>
        adds.foldl
          (fun wacc name =>
            wacc.updateLogger name fun l =>
              handlers.foldl PyLogger.addHandler (l.setLevel svc.config.LOGGING_LEVEL))
          w4
    (svc3, w5, Except.ok logger_name)

/-- `LoggingService.get_tracer`: lazily builds the trace pipeline with the
configured sampling ratio, then returns a tracer scoped to the module name. -/
def LoggingService.get_tracer (svc : LoggingService) (w : World) (module_name : String) :
    LoggingService × World × Tracer :=
  let provStep : LoggingService × World × TracerProvider :=
    match svc.tracer_provider with
    | some tp => (svc, w, tp)
    | none => svc.setup_tracer_provider w svc.sampling_ratio
  let svc1 := provStep.1
  let w1 := provStep.2.1
  let tp := provStep.2.2
  (svc1, w1, TracerProvider.get_tracer tp module_name)

/-! ### db.py -/

/-- The `Settings` object of db.py. -/
structure Settings where
  APPLICATIONINSIGHTS_CONNECTION_STRING : String
  COSMOSDB_ACCOUNT_NAME : String
  COSMOSDB_CONTAINER_NAME : String
  COSMOSDB_DATABASE_NAME : String
  COSMOSDB_PARTITION_KEY : String
  COSMOSDB_ACCESS_KEY : Option String := none
deriving DecidableEq, Repr

/-- The computed `host` field of `Settings`. -/
def Settings.host (s : Settings) : String :=
  "https://" ++ s.COSMOSDB_ACCOUNT_NAME ++ ".documents.azure.com:443/"

/-- The credential handed to `CosmosClient`: the raw access-key string, or a
`DefaultAzureCredential()` ambient chain object. -/
inductive Credential
  | accessKey (key : String)
  | defaultAzureCredential
deriving DecidableEq, Repr

/-- A `CosmosClient` handle. -/
structure CosmosClient where
  url : String
  credential : Credential
deriving DecidableEq, Repr

/-- A `DatabaseProxy` handle obtained from `get_database_client`. -/
structure DatabaseProxy where
  client : CosmosClient
  database : String
deriving DecidableEq, Repr

/-- A `ContainerProxy` handle obtained from `get_container_client`. -/
structure ContainerProxy where
  database_client : DatabaseProxy
  container : String
deriving DecidableEq, Repr

/-- The `DB` object after `__init__` ran `_init_connection`. -/
structure DB where
  settings : Settings
  cosmos_client : CosmosClient
  database_client : DatabaseProxy
  container_client : ContainerProxy
deriving DecidableEq, Repr

/-- `DB._init_connection`, as run by `DB.__init__` on the given settings. The
credential expression is Python truthiness:
`COSMOSDB_ACCESS_KEY if COSMOSDB_ACCESS_KEY else DefaultAzureCredential()`,
so both `None` and the empty string select the ambient chain. -/
def DB.init_connection (settings : Settings) : DB :=
  let credential : Credential :=
    match settings.COSMOSDB_ACCESS_KEY with
    | some key =>
      if key ≠ "" then Credential.accessKey key else Credential.defaultAzureCredential
    | none => Credential.defaultAzureCredential
  let cosmos_client : CosmosClient := { url := settings.host, credential := credential }
  let database_client : DatabaseProxy :=
    { client := cosmos_client, database := settings.COSMOSDB_DATABASE_NAME }
  let container_client : ContainerProxy :=
    { database_client := database_client, container := settings.COSMOSDB_CONTAINER_NAME }
  { settings := settings, cosmos_client := cosmos_client,
    database_client := database_client, container_client := container_client }

/-! ### main.py : the batch workflow -/

/-- A Python value appearing in the batch operations: an item dictionary or a
plain string id. -/
inductive PyValue
  | str (s : String)
  | dict (fields : List (String × String))
deriving DecidableEq, Repr

/-- A batch operation tuple `(operation_type, args_tuple, kwargs_dict)`. -/
structure BatchOperation where
  op_type : String
  args : List PyValue
  kwargs : List (String × PyValue)
deriving DecidableEq, Repr

/-- The partition value `"partition1"` of main.py. -/
def partition : String := "partition1"

/-- The first upserted item of main.py. -/
def item_1 : PyValue := PyValue.dict [("id", "123"), ("partitionKey", partition)]

/-- The second upserted item of main.py. -/
def item_2 : PyValue := PyValue.dict [("id", "456"), ("partitionKey", partition)]

/-- Batch operation 1: `("upsert", (item_1,), {})`. -/
def item_operation1 : BatchOperation := { op_type := "upsert", args := [item_1], kwargs := [] }

/-- Batch operation 2: `("upsert", (item_2,), {})`. -/
def item_operation2 : BatchOperation := { op_type := "upsert", args := [item_2], kwargs := [] }

/-- Batch operation 3: `("read", ("123",), {})`. -/
def item_operation3 : BatchOperation :=
  { op_type := "read", args := [PyValue.str "123"], kwargs := [] }

/-- Batch operation 4: `("read", ("456",), {})`. -/
def item_operation4 : BatchOperation :=
  { op_type := "read", args := [PyValue.str "456"], kwargs := [] }

/-- The fixed four-operation batch submitted by main.py. -/
def batch_operations : List BatchOperation :=
  [item_operation1, item_operation2, item_operation3, item_operation4]

/-- The `CosmosBatchOperationError` raised by `execute_item_batch`: the index of
the first failed operation and the per-operation responses. -/
structure CosmosBatchOperationError where
  error_index : Nat
  operation_responses : List PyValue
deriving DecidableEq, Repr

/-- What the workflow prints after the batch call: either the ordered result
list, or the failing request tuple together with its recorded response. -/
inductive BatchOutput
  | results (batch_results : List PyValue)
  | errorReport (error_operation : BatchOperation) (error_operation_response : PyValue)
deriving DecidableEq, Repr

/-- The try/except block around the single `execute_item_batch` call in main.py,
as a function of that call's outcome. On the aggregate error, the workflow indexes
`e.operation_responses` and `batch_operations` by `e.error_index` and reports both;
`none` models an out-of-range index raising an unhandled `IndexError`. There is no
retry and no further operation: the outcome is consumed exactly once. -/
def handle_batch (outcome : Except CosmosBatchOperationError (List PyValue)) :
    Option BatchOutput :=
  match outcome with
  | Except.ok batch_results => some (BatchOutput.results batch_results)
  | Except.error e =>
    match e.operation_responses.get? e.error_index, batch_operations.get? e.error_index with
    | some error_operation_response, some error_operation =>
      some (BatchOutput.errorReport error_operation error_operation_response)
    | _, _ => none

/-! ### Concrete fixtures (the values of main.py, and small variations) -/

/-- A concrete telemetry configuration with the defaults (level INFO, enabled). -/
def cfg0 : ConfigApplicationInsights :=
  { APPLICATIONINSIGHTS_CONNECTION_STRING := "InstrumentationKey=abc" }

/-- The same configuration with `LOGGING_ENABLED = False`. -/
def cfgDisabled : ConfigApplicationInsights :=
  { APPLICATIONINSIGHTS_CONNECTION_STRING := "InstrumentationKey=abc",
    LOGGING_ENABLED := false }

/-- A `LoggingService` as constructed in main.py (all constructor defaults). -/
def svc0 : LoggingService :=
  { config := cfg0, service_name := "ServiceName",
    service_instance_name := "ServiceInstanceName" }

/-- A `LoggingService` whose configuration has telemetry disabled. -/
def svcDisabled : LoggingService :=
  { config := cfgDisabled, service_name := "ServiceName",
    service_instance_name := "ServiceInstanceName" }

/-- A fresh process state: every logger unconfigured, no global providers. -/
def w0 : World := { pyLoggers := fun _ => {} }

/-! ### Helper lemmas on get_logger / get_tracer -/

/-- get_logger on an already-registered non-empty name returns the handle at once
and changes nothing. -/
lemma get_logger_mem (svc : LoggingService) (w : World) (name : String)
    (adds : Option (List String)) (h : name ≠ "") (hm : name ∈ svc.loggers) :
    svc.get_logger w name adds = (svc, w, Except.ok name) := by
  unfold LoggingService.get_logger
  rw [if_neg h, if_pos hm]

/-- get_logger on any non-empty name succeeds with that name as the handle. -/
lemma get_logger_ok (svc : LoggingService) (w : World) (name : String)
    (adds : Option (List String)) (h : name ≠ "") :
    (svc.get_logger w name adds).2.2 = Except.ok name := by
  by_cases hm : name ∈ svc.loggers
  · rw [get_logger_mem svc w name adds h hm]
  · unfold LoggingService.get_logger
    rw [if_neg h, if_neg hm]

/-- A first get_logger call on a new non-empty name appends the name to the
instance registry. -/
lemma get_logger_loggers_new (svc : LoggingService) (w : World) (name : String)
    (adds : Option (List String)) (h : name ≠ "") (hm : name ∉ svc.loggers) :
    (svc.get_logger w name adds).1.loggers = svc.loggers ++ [name] := by
  unfold LoggingService.get_logger
  rw [if_neg h, if_neg hm]
  cases he : svc.config.LOGGING_ENABLED <;>
    cases hlp : svc.logger_provider <;>
      simp [he, hlp, LoggingService.setup_logger_provider]

/-- get_logger never replaces an already-initialized log pipeline: the existing
provider stays on the instance. -/
lemma get_logger_provider_some (svc : LoggingService) (w : World) (name : String)
    (adds : Option (List String)) (lp : LoggerProvider)
    (hlp : svc.logger_provider = some lp) :
    (svc.get_logger w name adds).1.logger_provider = some lp := by
  unfold LoggingService.get_logger
  by_cases h0 : name = ""
  · rw [if_pos h0]; exact hlp
  · rw [if_neg h0]
    by_cases hm : name ∈ svc.loggers
    · rw [if_pos hm]; exact hlp
    · rw [if_neg hm]
      cases he : svc.config.LOGGING_ENABLED <;> simp [he, hlp]

/-- A first get_logger call on a new non-empty name leaves the log pipeline in the
state dictated by `LOGGING_ENABLED`: initialized iff the flag is true. -/
lemma get_logger_provider_none (svc : LoggingService) (w : World) (name : String)
    (adds : Option (List String)) (h : name ≠ "") (hm : name ∉ svc.loggers)
    (hlp : svc.logger_provider = none) :
    (svc.get_logger w name adds).1.logger_provider.isSome =
      svc.config.LOGGING_ENABLED := by
  unfold LoggingService.get_logger
  rw [if_neg h, if_neg hm]
  cases he : svc.config.LOGGING_ENABLED <;>
    simp [he, hlp, LoggingService.setup_logger_provider]

/-- get_tracer on an initialized trace pipeline is a pure read: it returns the
tracer of the existing provider and changes neither the instance nor the world. -/
lemma get_tracer_some (svc : LoggingService) (w : World) (m : String)
    (tp : TracerProvider) (htp : svc.tracer_provider = some tp) :
    svc.get_tracer w m = (svc, w, TracerProvider.get_tracer tp m) := by
  unfold LoggingService.get_tracer
  rw [htp]

/-- get_tracer on an uninitialized trace pipeline runs setup_tracer_provider with
the configured sampling ratio. -/
lemma get_tracer_none (svc : LoggingService) (w : World) (m : String)
    (htp : svc.tracer_provider = none) :
    svc.get_tracer w m =
      ((svc.setup_tracer_provider w svc.sampling_ratio).1,
        (svc.setup_tracer_provider w svc.sampling_ratio).2.1,
        TracerProvider.get_tracer (svc.setup_tracer_provider w svc.sampling_ratio).2.2 m) := by
  unfold LoggingService.get_tracer
  rw [htp]

/-! ### Claim theorems -/

/-- C3: for every LoggingService state, get_logger with the empty-string name
fails with the root-logger misuse error, and the instance (registry, providers)
and the world (every logger's handlers and level, the global providers) are
returned unchanged. -/
theorem C3_empty_name_rejected_state_unchanged (svc : LoggingService) (w : World)
    (additional_loggers : Option (List String)) :
    svc.get_logger w "" additional_loggers =
      (svc, w, Except.error rootLoggerErrorMessage) := by
  unfold LoggingService.get_logger
  rw [if_pos rfl]

/-- C8: the resource descriptors built by setup_logger_provider and
setup_tracer_provider carry the identical service-name / service-instance pair,
both taken from the same instance fields. -/
theorem C8_resources_identical (svc : LoggingService) (w w2 : World) (r : ℚ) :
    (svc.setup_logger_provider w).2.2.resource =
        (svc.setup_tracer_provider w2 r).2.2.resource ∧
      (svc.setup_logger_provider w).2.2.resource =
        { service_name := svc.service_name,
          service_instance_id := svc.service_instance_name } :=
  ⟨rfl, rfl⟩

/-- C6: the trace pipeline built by setup_tracer_provider registers a processor
wrapping the Azure Monitor (cloud) span exporter exactly when `LOGGING_ENABLED`
is true; the provider is constructed and installed as the process-wide default
in either case, so tracers can still be issued from it. -/
theorem C6_cloud_span_exporter_iff_enabled (svc : LoggingService) (w : World) (r : ℚ) :
    ((svc.setup_tracer_provider w r).2.2.processors.any
        fun p => p.exporter.isAzureMonitor) = svc.config.LOGGING_ENABLED ∧
      (svc.setup_tracer_provider w r).2.1.global_tracer_provider =
        some (svc.setup_tracer_provider w r).2.2 := by
  constructor
  · cases hc : svc.console_span_exporter <;> cases he : svc.config.LOGGING_ENABLED <;>
      simp [LoggingService.setup_tracer_provider, hc, he,
        LoggingService.init_console_span_exporter,
        LoggingService.init_azure_span_exporter, SpanExporter.isAzureMonitor]
  · rfl

/-- C5 counterexample: a settings value whose access key is present but equal to
the empty string. The key is present (`isSome`), yet the client is built with the
ambient credential chain, because the source selects by Python truthiness. -/
def settingsEmptyKey : Settings :=
  { APPLICATIONINSIGHTS_CONNECTION_STRING := "conn", COSMOSDB_ACCOUNT_NAME := "acct",
    COSMOSDB_CONTAINER_NAME := "cont", COSMOSDB_DATABASE_NAME := "dbname",
    COSMOSDB_PARTITION_KEY := "/partitionKey", COSMOSDB_ACCESS_KEY := some "" }

/-- C5 counterexample: with the access key present but empty, the database client
is built with the ambient credential chain, not the key — refuting the claim that
presence alone selects the key. -/
theorem C5_counterexample_empty_key :
    settingsEmptyKey.COSMOSDB_ACCESS_KEY.isSome = true ∧
      (DB.init_connection settingsEmptyKey).cosmos_client.credential =
        Credential.defaultAzureCredential :=
  ⟨rfl, rfl⟩

/-- C5 (amended): the client is built with the static access key as credential
whenever the key is present and non-empty (truthy); when the key is absent or the
empty string, the ambient credential chain is used. -/
theorem C5_credential_selection (s : Settings) :
    (∀ k, s.COSMOSDB_ACCESS_KEY = some k → k ≠ "" →
        (DB.init_connection s).cosmos_client.credential = Credential.accessKey k) ∧
      ((s.COSMOSDB_ACCESS_KEY = none ∨ s.COSMOSDB_ACCESS_KEY = some "") →
        (DB.init_connection s).cosmos_client.credential =
          Credential.defaultAzureCredential) := by
  constructor
  · intro k hk hne
    simp [DB.init_connection, hk, hne]
  · rintro (h | h) <;> simp [DB.init_connection, h]

/-- A concrete settings value with a non-empty static access key. -/
def settingsWithKey : Settings :=
  { APPLICATIONINSIGHTS_CONNECTION_STRING := "conn", COSMOSDB_ACCOUNT_NAME := "acct",
    COSMOSDB_CONTAINER_NAME := "cont", COSMOSDB_DATABASE_NAME := "dbname",
    COSMOSDB_PARTITION_KEY := "/partitionKey", COSMOSDB_ACCESS_KEY := some "secret" }

/-- C5 witness: with the key "secret" configured, the credential is that key. -/
theorem C5_credential_selection_witness :
    (DB.init_connection settingsWithKey).cosmos_client.credential =
      Credential.accessKey "secret" :=
  (C5_credential_selection settingsWithKey).1 "secret" rfl (by decide)

/-- C7: on the aggregate batch error with a failing index in range, the workflow
reports exactly the response at that index of the error's response list and the
request tuple at that index of the submitted operation list (and, being a single
pass over the one outcome, performs no retry and no further operation). -/
theorem C7_batch_error_report (e : CosmosBatchOperationError)
    (h1 : e.error_index < e.operation_responses.length)
    (h2 : e.error_index < batch_operations.length) :
    handle_batch (Except.error e) =
      some (BatchOutput.errorReport (batch_operations.get ⟨e.error_index, h2⟩)
        (e.operation_responses.get ⟨e.error_index, h1⟩)) := by
  simp only [handle_batch]
  rw [List.get?_eq_get h1, List.get?_eq_get h2]

/-- The failure induced at index 2 (the first read): per-operation responses up
to and including the failure. -/
def demoBatchError : CosmosBatchOperationError :=
  { error_index := 2,
    operation_responses :=
      [PyValue.dict [("statusCode", "200")], PyValue.dict [("statusCode", "200")],
        PyValue.dict [("statusCode", "424")]] }

/-- C7 witness: with the third operation failing, the report references the
request tuple at index 2 — the first read — and the response recorded at index 2. -/
theorem C7_batch_error_report_witness :
    handle_batch (Except.error demoBatchError) =
      some (BatchOutput.errorReport item_operation3
        (PyValue.dict [("statusCode", "424")])) := by
  have h := C7_batch_error_report demoBatchError (by decide) (by decide)
  simpa [batch_operations, demoBatchError] using h

/-- C9: for every logger name already present in the registry (registry names are
non-empty), a repeated get_logger call passing additional loggers returns the
handle at once and leaves the instance and the whole world unchanged — in
particular no handler is attached to any additional logger and no level is set. -/
theorem C9_repeat_additional_loggers_untouched (svc : LoggingService) (w : World)
    (name : String) (adds : List String) (h : name ≠ "") (hm : name ∈ svc.loggers) :
    svc.get_logger w name (some adds) = (svc, w, Except.ok name) :=
  get_logger_mem svc w name (some adds) h hm

/-- A service instance on which "LoggerName" is already registered. -/
def svcRegistered : LoggingService := { svc0 with loggers := ["LoggerName"] }

/-- C9 witness: the repeated call with an additional logger returns the handle and
the unchanged state. -/
theorem C9_repeat_additional_loggers_untouched_witness :
    ("LoggerName" : String) ≠ "" ∧ "LoggerName" ∈ svcRegistered.loggers ∧
      svcRegistered.get_logger w0 "LoggerName" (some ["azure.core"]) =
        (svcRegistered, w0, Except.ok "LoggerName") :=
  ⟨by decide, by decide,
    C9_repeat_additional_loggers_untouched svcRegistered w0 "LoggerName" ["azure.core"]
      (by decide) (by decide)⟩

/-- C4: for every non-empty name, get_logger succeeds with that name as handle,
and a second call on the resulting state returns the same handle and leaves the
service instance and the world (so every logger's attached handler set) exactly
as the first call left them: the second call attaches nothing. -/
theorem C4_get_logger_idempotent (svc : LoggingService) (w : World) (name : String)
    (h : name ≠ "") :
    (svc.get_logger w name none).2.2 = Except.ok name ∧
      (svc.get_logger w name none).1.get_logger (svc.get_logger w name none).2.1
          name none =
        ((svc.get_logger w name none).1, (svc.get_logger w name none).2.1,
          Except.ok name) := by
  refine ⟨get_logger_ok svc w name none h, ?_⟩
  apply get_logger_mem _ _ _ _ h
  by_cases hm : name ∈ svc.loggers
  · rw [get_logger_mem svc w name none h hm]
    exact hm
  · rw [get_logger_loggers_new svc w name none h hm]
    simp

/-- C4 witness: the double call at the concrete name "LoggerName" on a fresh
service and world. -/
theorem C4_get_logger_idempotent_witness :
    ("LoggerName" : String) ≠ "" ∧
      (svc0.get_logger w0 "LoggerName" none).2.2 = Except.ok "LoggerName" ∧
      (svc0.get_logger w0 "LoggerName" none).1.get_logger
          (svc0.get_logger w0 "LoggerName" none).2.1 "LoggerName" none =
        ((svc0.get_logger w0 "LoggerName" none).1,
          (svc0.get_logger w0 "LoggerName" none).2.1, Except.ok "LoggerName") :=
  ⟨by decide, (C4_get_logger_idempotent svc0 w0 "LoggerName" (by decide)).1,
    (C4_get_logger_idempotent svc0 w0 "LoggerName" (by decide)).2⟩

/-- C10: on an uninitialized trace pipeline, get_tracer builds the provider with
the instance's configured sampling ratio, while a direct setup_tracer_provider
call with no argument builds it with the default ratio 1, ignoring the
configured one. -/
theorem C10_sampling_ratio_paths (svc : LoggingService) (w : World) (m : String)
    (htp : svc.tracer_provider = none) :
    (svc.get_tracer w m).2.2.provider.sampler.sampling_ratio = svc.sampling_ratio ∧
      (svc.setup_tracer_provider w).2.2.sampler.sampling_ratio = 1 := by
  refine ⟨?_, rfl⟩
  rw [get_tracer_none svc w m htp]
  rfl

/-- A service configured with sampling ratio 1/2, so the two paths differ. -/
def svcHalf : LoggingService := { svc0 with sampling_ratio := 1 / 2 }

/-- C10 witness: with ratio 1/2 configured, get_tracer uses 1/2 and the direct
no-argument setup call uses 1. -/
theorem C10_sampling_ratio_paths_witness :
    svcHalf.tracer_provider = none ∧
      (svcHalf.get_tracer w0 "ModuleName").2.2.provider.sampler.sampling_ratio =
        svcHalf.sampling_ratio ∧
      (svcHalf.setup_tracer_provider w0).2.2.sampler.sampling_ratio = 1 :=
  ⟨rfl, (C10_sampling_ratio_paths svcHalf w0 "ModuleName" rfl).1,
    (C10_sampling_ratio_paths svcHalf w0 "ModuleName" rfl).2⟩

/-- C2 counterexample: with `LOGGING_ENABLED = False` and an uninitialized log
pipeline, the first get_logger call on a fresh non-empty name succeeds but does
not initialize the pipeline — refuting "initializes regardless of the
configuration's other fields". -/
theorem C2_counterexample_disabled_no_init :
    svcDisabled.logger_provider = none ∧
      (svcDisabled.get_logger w0 "LoggerName" none).2.2 = Except.ok "LoggerName" ∧
      (svcDisabled.get_logger w0 "LoggerName" none).1.logger_provider = none := by
  refine ⟨rfl, get_logger_ok _ _ _ _ (by decide), ?_⟩
  decide

/-- C2 (amended): the first get_logger call on a fresh non-empty name initializes
the log pipeline exactly when `LOGGING_ENABLED` is true; the first get_tracer call
always initializes the trace pipeline; on an already-initialized pipeline either
call leaves the existing provider in place. -/
theorem C2_lazy_init_respects_enabled_flag (svc : LoggingService) (w : World)
    (name m : String) (h : name ≠ "") (hm : name ∉ svc.loggers) :
    (svc.logger_provider = none →
        (svc.get_logger w name none).1.logger_provider.isSome =
          svc.config.LOGGING_ENABLED) ∧
      (svc.tracer_provider = none →
        (svc.get_tracer w m).1.tracer_provider.isSome = true) ∧
      (∀ lp, svc.logger_provider = some lp →
        (svc.get_logger w name none).1.logger_provider = some lp) ∧
      (∀ tp, svc.tracer_provider = some tp →
        (svc.get_tracer w m).1.tracer_provider = some tp) := by
  refine ⟨fun hlp => get_logger_provider_none svc w name none h hm hlp,
    fun htp => ?_, fun lp hlp => get_logger_provider_some svc w name none lp hlp,
    fun tp htp => ?_⟩
  · rw [get_tracer_none svc w m htp]
    rfl
  · rw [get_tracer_some svc w m tp htp]
    exact htp

/-- C2 witness: on a fresh default service (telemetry enabled) both lazy paths
initialize their pipeline at the first call. -/
theorem C2_lazy_init_respects_enabled_flag_witness :
    (svc0.get_logger w0 "LoggerName" none).1.logger_provider.isSome = true ∧
      (svc0.get_tracer w0 "ModuleName").1.tracer_provider.isSome = true :=
  ⟨(C2_lazy_init_respects_enabled_flag svc0 w0 "LoggerName" "ModuleName"
      (by decide) (by decide)).1 rfl,
    (C2_lazy_init_respects_enabled_flag svc0 w0 "LoggerName" "ModuleName"
      (by decide) (by decide)).2.1 rfl⟩

/-- C1 counterexample: after a first setup call, calling setup_logger_provider
(resp. setup_tracer_provider) again is not a no-op returning the existing
provider: it returns a freshly built provider, distinct from the existing one,
and records it on the instance. -/
theorem C1_counterexample_setup_not_noop :
    ((svc0.setup_logger_provider w0).1.setup_logger_provider
          (svc0.setup_logger_provider w0).2.1).2.2 ≠
        (svc0.setup_logger_provider w0).2.2 ∧
      ((svc0.setup_tracer_provider w0).1.setup_tracer_provider
          (svc0.setup_tracer_provider w0).2.1).2.2 ≠
        (svc0.setup_tracer_provider w0).2.2 ∧
      ((svc0.setup_logger_provider w0).1.setup_logger_provider
          (svc0.setup_logger_provider w0).2.1).1.logger_provider =
        some ((svc0.setup_logger_provider w0).1.setup_logger_provider
          (svc0.setup_logger_provider w0).2.1).2.2 := by
  refine ⟨?_, ?_, rfl⟩ <;> decide

/-- C1 (amended): every direct call to setup_logger_provider (resp.
setup_tracer_provider) — also when the pipeline is already initialized —
constructs a fresh provider object, installs it as the process-wide default and
records it on the instance; the at-most-once behavior holds only on the lazy
paths: with the pipeline initialized, get_logger keeps the existing log provider
and get_tracer is a pure read returning the existing trace provider. -/
theorem C1_setup_rebuilds_guard_is_lazy (svc : LoggingService) (w : World)
    (lp : LoggerProvider) (tp : TracerProvider) (r : ℚ) (name m : String)
    (adds : Option (List String)) (hlp : svc.logger_provider = some lp)
    (htp : svc.tracer_provider = some tp) :
    ((svc.setup_logger_provider w).2.2.objId = w.nextObjId ∧
        (svc.setup_logger_provider w).1.logger_provider =
          some (svc.setup_logger_provider w).2.2 ∧
        (svc.setup_logger_provider w).2.1.global_logger_provider =
          some (svc.setup_logger_provider w).2.2 ∧
        (svc.setup_logger_provider w).2.1.nextObjId = w.nextObjId + 1) ∧
      ((svc.setup_tracer_provider w r).2.2.objId = w.nextObjId ∧
        (svc.setup_tracer_provider w r).1.tracer_provider =
          some (svc.setup_tracer_provider w r).2.2 ∧
        (svc.setup_tracer_provider w r).2.1.global_tracer_provider =
          some (svc.setup_tracer_provider w r).2.2 ∧
        (svc.setup_tracer_provider w r).2.1.nextObjId = w.nextObjId + 1) ∧
      (svc.get_logger w name adds).1.logger_provider = some lp ∧
      svc.get_tracer w m = (svc, w, TracerProvider.get_tracer tp m) :=
  ⟨⟨rfl, rfl, rfl, rfl⟩, ⟨rfl, rfl, rfl, rfl⟩,
    get_logger_provider_some svc w name adds lp hlp, get_tracer_some svc w m tp htp⟩

/-- The resource descriptor of the witness providers. -/
def res0 : Resource :=
  { service_name := "ServiceName", service_instance_id := "ServiceInstanceName" }

/-- A concrete already-installed logger provider. -/
def lp0 : LoggerProvider := { objId := 7, resource := res0, processors := [] }

/-- A concrete already-installed tracer provider. -/
def tp0 : TracerProvider :=
  { objId := 8, sampler := { sampling_ratio := 1 }, resource := res0, processors := [] }

/-- A service whose two pipelines are already initialized. -/
def svcInit : LoggingService :=
  { svc0 with logger_provider := some lp0, tracer_provider := some tp0 }

/-- C1 witness: on an initialized service, get_logger keeps the existing log
provider and get_tracer returns the existing trace provider without any change. -/
theorem C1_setup_rebuilds_guard_is_lazy_witness :
    svcInit.logger_provider = some lp0 ∧ svcInit.tracer_provider = some tp0 ∧
      (svcInit.get_logger w0 "LoggerName" none).1.logger_provider = some lp0 ∧
      svcInit.get_tracer w0 "ModuleName" =
        (svcInit, w0, TracerProvider.get_tracer tp0 "ModuleName") :=
  ⟨rfl, rfl,
    (C1_setup_rebuilds_guard_is_lazy svcInit w0 lp0 tp0 1 "LoggerName" "ModuleName"
      none rfl rfl).2.2.1,
    (C1_setup_rebuilds_guard_is_lazy svcInit w0 lp0 tp0 1 "LoggerName" "ModuleName"
      none rfl rfl).2.2.2⟩

end CosmosBatchApi
